import Mathlib

/-!
Verification of the llm-judge-reporting core: the bias-corrected
estimator with its confidence interval and the calibration-budget
allocator.  The allocator is embedded from
src/llm_judge_reporting/allocation.py; the estimator and interval are
modelled from the specification because calibration.py is absent from
the sources.  Real numbers stand for Python floats (the properties at
stake are exact-arithmetic ones) and bround models the Python built-in
round, which rounds half to even.
-/

namespace LLMJudgeReporting

/-- Bankers rounding to the nearest integer, halves going to the even
neighbour, as performed by the Python built-in round on a float. -/
noncomputable def bround (x : ℝ) : ℤ :=
  if Int.fract x = 1/2 then (if 2 ∣ ⌊x⌋ then ⌊x⌋ else ⌊x⌋ + 1) else round x

/-- Modelled from the spec: the Clipper of calibration.py (a file the
sources do not contain); clip(x) = max(0, min(1, x)). -/
noncomputable def clip (x : ℝ) : ℝ := max 0 (min 1 x)

/-- Error taxonomy of the estimator and interval operations, from the
spec (sections 4.2, 4.3 and 7). -/
inductive CalibError where
  | degenerateCalibration
  | invalidSampleSize
  deriving DecidableEq

/-- Modelled from the spec: point_estimator of calibration.py (a file
the sources do not contain).  With D = q0 + q1 - 1, fails with
DegenerateCalibration when the absolute value of D is below the
threshold, and otherwise returns clip((p - 1 + q0) / D). -/
noncomputable def point_estimator (p q0 q1 ε : ℝ) : Except CalibError ℝ :=
  if |q0 + q1 - 1| < ε then Except.error CalibError.degenerateCalibration
  else Except.ok (clip ((p - 1 + q0) / (q0 + q1 - 1)))

/-- Modelled from the spec: the delta-method first-order variance of the
corrected estimate used by confidence_interval, with D = q0 + q1 - 1:
Var(p)/D^2 + Var(q0)(q1-p)^2/D^4 + Var(q1)θ^2/D^2 where
Var(p) = p(1-p)/n, Var(q0) = q0(1-q0)/m0, Var(q1) = q1(1-q1)/m1. -/
noncomputable def varTheta (p q0 q1 : ℝ) (n m0 m1 : ℕ) (θ : ℝ) : ℝ :=
  p * (1 - p) / n / (q0 + q1 - 1) ^ 2
    + q0 * (1 - q0) / m0 * (q1 - p) ^ 2 / (q0 + q1 - 1) ^ 4
    + q1 * (1 - q1) / m1 * θ ^ 2 / (q0 + q1 - 1) ^ 2

/-- Modelled from the spec: confidence_interval of calibration.py (a
file the sources do not contain).  Fails with InvalidSampleSize when n,
m0 or m1 is zero; reuses point_estimator (propagating its degenerate
failure identically); the standard-normal quantile at level 1 - α/2
enters as the parameter z (which is positive for α in (0,1)). -/
noncomputable def confidence_interval (p q0 q1 : ℝ) (n m0 m1 : ℕ) (z ε : ℝ) :
    Except CalibError (ℝ × ℝ) :=
  if n = 0 ∨ m0 = 0 ∨ m1 = 0 then Except.error CalibError.invalidSampleSize
  else
    match point_estimator p q0 q1 ε with
    | Except.error e => Except.error e
    | Except.ok θ =>
        Except.ok (clip (θ - z * Real.sqrt (varTheta p q0 q1 n m0 m1 θ)),
                   clip (θ + z * Real.sqrt (varTheta p q0 q1 n m0 m1 θ)))

/-- The expected_observed_rate helper of src/run/figure2_bias_adjustment.py:
the expected observed rate (q0 + q1 - 1)θ + (1 - q0) paired with the
turning point where the bias changes sign. -/
noncomputable def expected_observed_rate (θ q0 q1 : ℝ) : ℝ × ℝ :=
  ((q0 + q1 - 1) * θ + (1 - q0), (1 - q0) / (2 - q0 - q1))

/-- The kappa ratio computed inside allocate_calibration_sample
(src/llm_judge_reporting/allocation.py, lines 31 to 36): prior beliefs
with q1 clamped below one when no pilot data exists, the
Laplace-smoothed pilot estimate otherwise. -/
noncomputable def kappa (m_pilot : ℕ) (q0_pilot q1_pilot ε : ℝ) : ℝ :=
  if m_pilot = 0 then (1 - q0_pilot) / (1 - min q1_pilot (1 - ε))
  else ((m_pilot : ℝ) * (1 - q0_pilot) + 1) / ((m_pilot : ℝ) * (1 - q1_pilot) + 1)

/-- allocate_calibration_sample of src/llm_judge_reporting/allocation.py.
When p is below ε all budget beyond the pilot goes to the sensitivity
side; otherwise m1 is m / (1 + (1/p - 1) sqrt kappa), upper-bounded by
m - m_pilot, rounded, then lower-bounded by m_pilot; m0 = m - m1.  The
Python function performs no feasibility check relating m_pilot to m and
raises no error beyond its entry assertions, so the embedding is total
with codomain ℤ × ℤ. -/
noncomputable def allocate_calibration_sample (m : ℕ) (p q0_pilot q1_pilot : ℝ)
    (m_pilot : ℕ) (ε : ℝ) : ℤ × ℤ :=
  if p < ε then ((m_pilot : ℤ), (m : ℤ) - (m_pilot : ℤ))
  else
    ((m : ℤ) - max (m_pilot : ℤ) (bround (min ((m : ℝ) - (m_pilot : ℝ))
        ((m : ℝ) / (1 + (1 / p - 1) * Real.sqrt (kappa m_pilot q0_pilot q1_pilot ε))))),
     max (m_pilot : ℤ) (bround (min ((m : ℝ) - (m_pilot : ℝ))
        ((m : ℝ) / (1 + (1 / p - 1) * Real.sqrt (kappa m_pilot q0_pilot q1_pilot ε))))))

/-- allocate_calibration_sample together with its only side effect: the
Boolean records whether the advisory warning is emitted, which in the
Python code happens exactly in the branch where p is at least ε and
m_pilot is zero. -/
noncomputable def allocate_calibration_sample_logged (m : ℕ) (p q0_pilot q1_pilot : ℝ)
    (m_pilot : ℕ) (ε : ℝ) : (ℤ × ℤ) × Bool :=
  if p < ε then (((m_pilot : ℤ), (m : ℤ) - (m_pilot : ℤ)), false)
  else
    (((m : ℤ) - max (m_pilot : ℤ) (bround (min ((m : ℝ) - (m_pilot : ℝ))
        ((m : ℝ) / (1 + (1 / p - 1) * Real.sqrt (kappa m_pilot q0_pilot q1_pilot ε))))),
      max (m_pilot : ℤ) (bround (min ((m : ℝ) - (m_pilot : ℝ))
        ((m : ℝ) / (1 + (1 / p - 1) * Real.sqrt (kappa m_pilot q0_pilot q1_pilot ε)))))),
     decide (m_pilot = 0))

/-- The kappa ratio exactly as the claim C4 words it (it agrees with the
kappa the code computes). -/
noncomputable def kappaSpec (m_pilot : ℕ) (q0_pilot q1_pilot ε : ℝ) : ℝ :=
  if m_pilot = 0 then (1 - q0_pilot) / (1 - min q1_pilot (1 - ε))
  else ((m_pilot : ℝ) * (1 - q0_pilot) + 1) / ((m_pilot : ℝ) * (1 - q1_pilot) + 1)

/-- The sensitivity-side size exactly as the claim C4 words it:
m / (1 + (1/p - 1) sqrt kappa), clamped to the interval
[m_pilot, m - m_pilot] and then rounded to the nearest integer. -/
noncomputable def m1Spec (m : ℕ) (p q0_pilot q1_pilot : ℝ) (m_pilot : ℕ) (ε : ℝ) : ℤ :=
  bround (max ((m_pilot : ℝ)) (min ((m : ℝ) - (m_pilot : ℝ))
    ((m : ℝ) / (1 + (1 / p - 1) * Real.sqrt (kappaSpec m_pilot q0_pilot q1_pilot ε)))))

theorem bround_le {y : ℝ} {k : ℤ} (h : y ≤ (k : ℝ)) : bround y ≤ k := by
  rw [bround]
  split_ifs with htie heven
  · exact (Int.floor_le_floor h).trans_eq (Int.floor_intCast k)
  · have h0 := Int.floor_add_fract y
    rw [htie] at h0
    have hfk : (⌊y⌋ : ℝ) < (k : ℝ) := by linarith
    have : ⌊y⌋ < k := by exact_mod_cast hfk
    omega
  · rw [round_eq]
    have h2 : y + 1/2 < ((k + 1 : ℤ) : ℝ) := by push_cast; linarith
    have h3 : ⌊y + 1/2⌋ < k + 1 := Int.floor_lt.mpr h2
    omega

theorem le_bround {y : ℝ} {k : ℤ} (h : (k : ℝ) ≤ y) : k ≤ bround y := by
  rw [bround]
  split_ifs with htie heven
  · have h0 := Int.floor_add_fract y
    rw [htie] at h0
    have hfk : (k : ℝ) < (⌊y⌋ : ℝ) + 1 := by linarith
    have : k < ⌊y⌋ + 1 := by exact_mod_cast hfk
    omega
  · have h0 := Int.floor_add_fract y
    rw [htie] at h0
    have hfk : (k : ℝ) < (⌊y⌋ : ℝ) + 1 := by linarith
    have : k < ⌊y⌋ + 1 := by exact_mod_cast hfk
    omega
  · rw [round_eq]
    exact Int.le_floor.mpr (by linarith)

theorem bround_intCast (k : ℤ) : bround (k : ℝ) = k :=
  le_antisymm (bround_le le_rfl) (le_bround le_rfl)

theorem bround_max_intCast (a : ℤ) (y : ℝ) :
    bround (max (a : ℝ) y) = max a (bround y) := by
  rcases le_total y (a : ℝ) with h | h
  · rw [max_eq_left h, bround_intCast, max_eq_left (bround_le h)]
  · rw [max_eq_right h, max_eq_right (le_bround h)]

theorem bround_eq_of_bounds {x : ℝ} {k : ℤ} (h1 : (k : ℝ) ≤ x)
    (h2 : x < (k : ℝ) + 1/2) : bround x = k := by
  have hfl : ⌊x⌋ = k := Int.floor_eq_iff.mpr ⟨h1, by linarith⟩
  have hfr : Int.fract x ≠ 1/2 := by
    have : Int.fract x = x - (k : ℝ) := by rw [← Int.self_sub_floor x, hfl]
    rw [this]
    intro hc
    have : x = (k : ℝ) + 1/2 := by linarith
    rw [this] at h2
    linarith
  rw [bround, if_neg hfr, round_eq]
  have h3 : ((k : ℝ)) ≤ x + 1/2 := by linarith
  have h4 : x + 1/2 < ((k + 1 : ℤ) : ℝ) := by push_cast; linarith
  have h5 : ⌊x + 1/2⌋ < k + 1 := Int.floor_lt.mpr h4
  have h6 : k ≤ ⌊x + 1/2⌋ := Int.le_floor.mpr (by exact_mod_cast h3)
  omega

theorem clip_nonneg (x : ℝ) : 0 ≤ clip x := le_max_left 0 _

theorem clip_le_one (x : ℝ) : clip x ≤ 1 :=
  max_le zero_le_one (min_le_left 1 x)

theorem clip_mono {x y : ℝ} (h : x ≤ y) : clip x ≤ clip y :=
  max_le_max le_rfl (min_le_min le_rfl h)

theorem clip_of_mem {x : ℝ} (h0 : 0 ≤ x) (h1 : x ≤ 1) : clip x = x := by
  rw [clip, min_eq_right h1, max_eq_right h0]

/-- Claim C1, code-bug exhibit: with m = 10 and m_pilot = 8 the pilot
reservation cannot fit (2 times m_pilot exceeds m), yet
allocate_calibration_sample surfaces no InfeasibleAllocation failure:
it returns the pair (8, 2), whose second component is below m_pilot,
contradicting the guarantee stated in its own docstring. -/
theorem c1_infeasible_not_rejected :
    allocate_calibration_sample 10 0 (9/10) (9/10) 8 (1/1000000) = (8, 2) ∧
    (allocate_calibration_sample 10 0 (9/10) (9/10) 8 (1/1000000)).2 < 8 := by
  have h : (0 : ℝ) < 1/1000000 := by norm_num
  unfold allocate_calibration_sample
  rw [if_pos h]
  norm_num

/-- Claim C2: whenever m is positive, twice m_pilot is at most m, and
p, q0_pilot, q1_pilot lie in the unit interval, the allocator returns
integers m0 and m1 with m0 + m1 = m and both components at least
m_pilot. -/
theorem c2_budget_conservation (m m_pilot : ℕ) (p q0 q1 ε : ℝ)
    (hm : 0 < m) (hpil : 2 * m_pilot ≤ m)
    (hp0 : 0 ≤ p) (hp1 : p ≤ 1)
    (hq00 : 0 ≤ q0) (hq01 : q0 ≤ 1) (hq10 : 0 ≤ q1) (hq11 : q1 ≤ 1) :
    (allocate_calibration_sample m p q0 q1 m_pilot ε).1
        + (allocate_calibration_sample m p q0 q1 m_pilot ε).2 = (m : ℤ) ∧
    (m_pilot : ℤ) ≤ (allocate_calibration_sample m p q0 q1 m_pilot ε).1 ∧
    (m_pilot : ℤ) ≤ (allocate_calibration_sample m p q0 q1 m_pilot ε).2 := by
  have hpil' : 2 * (m_pilot : ℤ) ≤ (m : ℤ) := by exact_mod_cast hpil
  unfold allocate_calibration_sample
  split_ifs with hpe
  · dsimp only
    refine ⟨by ring, le_refl _, by omega⟩
  · dsimp only
    have hub : bround (min ((m : ℝ) - (m_pilot : ℝ))
        ((m : ℝ) / (1 + (1 / p - 1) * Real.sqrt (kappa m_pilot q0 q1 ε))))
          ≤ (m : ℤ) - (m_pilot : ℤ) := by
      apply bround_le
      push_cast
      exact min_le_left _ _
    have hmax : max (m_pilot : ℤ) (bround (min ((m : ℝ) - (m_pilot : ℝ))
        ((m : ℝ) / (1 + (1 / p - 1) * Real.sqrt (kappa m_pilot q0 q1 ε)))))
          ≤ (m : ℤ) - (m_pilot : ℤ) := max_le (by omega) hub
    exact ⟨by ring, by omega, le_max_left _ _⟩

/-- Claim C2 witness at m = 100, m_pilot = 10, p = 1/2, q0 = 7/10,
q1 = 9/10, ε = 1/1000000. -/
theorem c2_budget_conservation_witness :
    (allocate_calibration_sample 100 (1/2) (7/10) (9/10) 10 (1/1000000)).1
        + (allocate_calibration_sample 100 (1/2) (7/10) (9/10) 10 (1/1000000)).2 = (100 : ℤ) ∧
    (10 : ℤ) ≤ (allocate_calibration_sample 100 (1/2) (7/10) (9/10) 10 (1/1000000)).1 ∧
    (10 : ℤ) ≤ (allocate_calibration_sample 100 (1/2) (7/10) (9/10) 10 (1/1000000)).2 :=
  c2_budget_conservation 100 10 (1/2) (7/10) (9/10) (1/1000000)
    (by norm_num) (by norm_num) (by norm_num) (by norm_num)
    (by norm_num) (by norm_num) (by norm_num) (by norm_num)

/-- Claim C3, counterexample: at θ = 0, q0 = 1/2, q1 = 1/2 + 10⁻⁷ the
claimed hypotheses hold (q0 + q1 differs from 1), yet with the default
threshold the estimator fails with DegenerateCalibration instead of
returning clip(θ). -/
theorem c3_round_trip_counterexample :
    (1/2 : ℝ) + (1/2 + 1/10000000) ≠ 1 ∧
    point_estimator (expected_observed_rate 0 (1/2) (1/2 + 1/10000000)).1
        (1/2) (1/2 + 1/10000000) (1/1000000)
      = Except.error CalibError.degenerateCalibration := by
  constructor
  · norm_num
  · rw [point_estimator, if_pos]
    rw [abs_lt]
    constructor <;> norm_num

/-- Claim C3 (amended): the round trip holds on the stated domain
provided additionally the discriminability q0 + q1 - 1 is at least the
estimator threshold ε in absolute value; then the estimator exactly
inverts the bias map and returns clip(θ). -/
theorem c3_round_trip (θ q0 q1 ε : ℝ) (hθ0 : 0 ≤ θ) (hθ1 : θ ≤ 1)
    (hq00 : 0 < q0) (hq01 : q0 < 1) (hq10 : 0 < q1) (hq11 : q1 < 1)
    (hne : q0 + q1 ≠ 1) (hε : ε ≤ |q0 + q1 - 1|) :
    point_estimator (expected_observed_rate θ q0 q1).1 q0 q1 ε
      = Except.ok (clip θ) := by
  have hD : q0 + q1 - 1 ≠ 0 := sub_ne_zero.mpr hne
  unfold expected_observed_rate point_estimator
  dsimp only
  rw [if_neg (not_lt.mpr hε)]
  have key : ((q0 + q1 - 1) * θ + (1 - q0) - 1 + q0) / (q0 + q1 - 1) = θ := by
    have h1 : (q0 + q1 - 1) * θ + (1 - q0) - 1 + q0 = (q0 + q1 - 1) * θ := by ring
    rw [h1, mul_div_cancel_left₀ θ hD]
  rw [key]

/-- Claim C3 witness at θ = 1/4, q0 = 7/10, q1 = 9/10, ε = 1/1000000. -/
theorem c3_round_trip_witness :
    (1/1000000 : ℝ) ≤ |(7/10 : ℝ) + 9/10 - 1| ∧
    point_estimator (expected_observed_rate (1/4) (7/10) (9/10)).1
        (7/10) (9/10) (1/1000000) = Except.ok (clip (1/4)) :=
  ⟨by rw [abs_of_pos (by norm_num : (0:ℝ) < 7/10 + 9/10 - 1)]; norm_num,
   c3_round_trip (1/4) (7/10) (9/10) (1/1000000) (by norm_num) (by norm_num)
     (by norm_num) (by norm_num) (by norm_num) (by norm_num) (by norm_num)
     (by rw [abs_of_pos (by norm_num : (0:ℝ) < 7/10 + 9/10 - 1)]; norm_num)⟩

/-- Claim C4: for valid inputs with p at least ε, the allocator computes
m1 by the optimal-ratio formula m / (1 + (1/p - 1) sqrt kappa) with
kappa as the claim states it, clamps it to [m_pilot, m - m_pilot],
rounds it to the nearest integer, and returns m0 = m - m1. -/
theorem c4_general_case_formula (m m_pilot : ℕ) (p q0 q1 ε : ℝ)
    (hm : 0 < m) (hpil : 2 * m_pilot ≤ m)
    (hp0 : 0 ≤ p) (hp1 : p ≤ 1) (hq00 : 0 ≤ q0) (hq01 : q0 ≤ 1)
    (hq10 : 0 ≤ q1) (hq11 : q1 ≤ 1) (hεp : ε ≤ p) :
    allocate_calibration_sample m p q0 q1 m_pilot ε
      = ((m : ℤ) - m1Spec m p q0 q1 m_pilot ε, m1Spec m p q0 q1 m_pilot ε) := by
  have hks : kappaSpec m_pilot q0 q1 ε = kappa m_pilot q0 q1 ε := rfl
  have hcast : (((m_pilot : ℤ)) : ℝ) = (m_pilot : ℝ) := by push_cast; rfl
  have hswap : m1Spec m p q0 q1 m_pilot ε
      = max (m_pilot : ℤ) (bround (min ((m : ℝ) - (m_pilot : ℝ))
          ((m : ℝ) / (1 + (1 / p - 1) * Real.sqrt (kappa m_pilot q0 q1 ε))))) := by
    rw [m1Spec, hks, ← hcast, bround_max_intCast]
  rw [allocate_calibration_sample, hswap]
  rw [if_neg (not_lt.mpr hεp)]

/-- Claim C4 witness at m = 100, m_pilot = 10, p = 1/2, q0 = 7/10,
q1 = 9/10, ε = 1/1000000. -/
theorem c4_general_case_formula_witness :
    allocate_calibration_sample 100 (1/2) (7/10) (9/10) 10 (1/1000000)
      = ((100 : ℤ) - m1Spec 100 (1/2) (7/10) (9/10) 10 (1/1000000),
         m1Spec 100 (1/2) (7/10) (9/10) 10 (1/1000000)) :=
  c4_general_case_formula 100 10 (1/2) (7/10) (9/10) (1/1000000)
    (by norm_num) (by norm_num) (by norm_num) (by norm_num) (by norm_num)
    (by norm_num) (by norm_num) (by norm_num) (by norm_num)

/-- Claim C5: for every valid input with p below ε (in particular p = 0)
the allocator returns exactly (m_pilot, m - m_pilot). -/
theorem c5_degenerate_allocation (m m_pilot : ℕ) (p q0 q1 ε : ℝ)
    (hm : 0 < m) (hpil : 2 * m_pilot ≤ m)
    (hp0 : 0 ≤ p) (hp1 : p ≤ 1) (hq00 : 0 ≤ q0) (hq01 : q0 ≤ 1)
    (hq10 : 0 ≤ q1) (hq11 : q1 ≤ 1) (hpe : p < ε) :
    allocate_calibration_sample m p q0 q1 m_pilot ε
      = ((m_pilot : ℤ), (m : ℤ) - (m_pilot : ℤ)) := by
  rw [allocate_calibration_sample, if_pos hpe]

/-- Claim C5 witness at m = 10, m_pilot = 3, p = 0, q0 = q1 = 9/10,
ε = 1/1000000. -/
theorem c5_degenerate_allocation_witness :
    allocate_calibration_sample 10 0 (9/10) (9/10) 3 (1/1000000) = ((3 : ℤ), (7 : ℤ)) := by
  have h := c5_degenerate_allocation 10 3 0 (9/10) (9/10) (1/1000000)
    (by norm_num) (by norm_num) (by norm_num) (by norm_num) (by norm_num)
    (by norm_num) (by norm_num) (by norm_num) (by norm_num)
  rw [h]
  norm_num

/-- Claim C6, counterexample: at the valid input m = 10, p = 0,
q0 = q1 = 9/10, m_pilot = 0 the code takes the degenerate branch and
emits no advisory even though m_pilot = 0, so the claim as stated
fails. -/
theorem c6_advisory_counterexample :
    (allocate_calibration_sample_logged 10 0 (9/10) (9/10) 0 (1/1000000)).2 = false := by
  rw [allocate_calibration_sample_logged, if_pos (by norm_num : (0 : ℝ) < 1/1000000)]

/-- Claim C6 (amended): on every valid input with m_pilot = 0 and p at
least ε the advisory is emitted, and emitting it never changes the
returned pair: the result equals that of the advisory-free
computation. -/
theorem c6_advisory_harmless (m : ℕ) (p q0 q1 ε : ℝ)
    (hm : 0 < m) (hp0 : 0 ≤ p) (hp1 : p ≤ 1) (hq00 : 0 ≤ q0) (hq01 : q0 ≤ 1)
    (hq10 : 0 ≤ q1) (hq11 : q1 ≤ 1) (hεp : ε ≤ p) :
    (allocate_calibration_sample_logged m p q0 q1 0 ε).2 = true ∧
    (allocate_calibration_sample_logged m p q0 q1 0 ε).1
      = allocate_calibration_sample m p q0 q1 0 ε := by
  rw [allocate_calibration_sample_logged, allocate_calibration_sample,
      if_neg (not_lt.mpr hεp), if_neg (not_lt.mpr hεp)]
  exact ⟨by simp, rfl⟩

/-- Claim C6 witness at m = 100, p = 1/2, q0 = 7/10, q1 = 9/10,
m_pilot = 0, ε = 1/1000000. -/
theorem c6_advisory_harmless_witness :
    (allocate_calibration_sample_logged 100 (1/2) (7/10) (9/10) 0 (1/1000000)).2 = true ∧
    (allocate_calibration_sample_logged 100 (1/2) (7/10) (9/10) 0 (1/1000000)).1
      = allocate_calibration_sample 100 (1/2) (7/10) (9/10) 0 (1/1000000) :=
  c6_advisory_harmless 100 (1/2) (7/10) (9/10) (1/1000000)
    (by norm_num) (by norm_num) (by norm_num) (by norm_num) (by norm_num)
    (by norm_num) (by norm_num) (by norm_num)

/-- Claim C7: for probability inputs in range with discriminability at
least ε, positive sample sizes and a non-negative normal quantile, the
interval operation succeeds and returns bounds lo and hi inside the
unit interval that bracket the point estimate it reuses. -/
theorem c7_bound_ordering (p q0 q1 z ε : ℝ) (n m0 m1 : ℕ)
    (hp0 : 0 ≤ p) (hp1 : p ≤ 1) (hq00 : 0 ≤ q0) (hq01 : q0 ≤ 1)
    (hq10 : 0 ≤ q1) (hq11 : q1 ≤ 1)
    (hn : 0 < n) (hm0 : 0 < m0) (hm1 : 0 < m1) (hz : 0 ≤ z)
    (hD : ε ≤ |q0 + q1 - 1|) :
    ∃ θ lo hi, point_estimator p q0 q1 ε = Except.ok θ ∧
      confidence_interval p q0 q1 n m0 m1 z ε = Except.ok (lo, hi) ∧
      lo ≤ θ ∧ θ ≤ hi ∧ 0 ≤ lo ∧ lo ≤ 1 ∧ 0 ≤ hi ∧ hi ≤ 1 := by
  set θ := clip ((p - 1 + q0) / (q0 + q1 - 1)) with hθ
  have hθ0 : 0 ≤ θ := clip_nonneg _
  have hθ1 : θ ≤ 1 := clip_le_one _
  have hpe : point_estimator p q0 q1 ε = Except.ok θ := by
    rw [point_estimator, if_neg (not_lt.mpr hD)]
  set s := z * Real.sqrt (varTheta p q0 q1 n m0 m1 θ) with hs
  have hs0 : 0 ≤ s := mul_nonneg hz (Real.sqrt_nonneg _)
  have hci : confidence_interval p q0 q1 n m0 m1 z ε
      = Except.ok (clip (θ - s), clip (θ + s)) := by
    rw [confidence_interval, if_neg (by push_neg; exact ⟨hn.ne', hm0.ne', hm1.ne'⟩), hpe]
  refine ⟨θ, clip (θ - s), clip (θ + s), hpe, hci, ?_, ?_,
    clip_nonneg _, clip_le_one _, clip_nonneg _, clip_le_one _⟩
  · have h1 : clip (θ - s) ≤ clip θ := clip_mono (by linarith)
    rwa [clip_of_mem hθ0 hθ1] at h1
  · have h1 : clip θ ≤ clip (θ + s) := clip_mono (by linarith)
    rwa [clip_of_mem hθ0 hθ1] at h1

/-- Claim C7 witness at p = 1/2, q0 = 7/10, q1 = 9/10, n = 1000000,
m0 = m1 = 500, z = 196/100, ε = 1/1000000. -/
theorem c7_bound_ordering_witness :
    ∃ θ lo hi,
      point_estimator (1/2) (7/10) (9/10) (1/1000000) = Except.ok θ ∧
      confidence_interval (1/2) (7/10) (9/10) 1000000 500 500 (196/100) (1/1000000)
        = Except.ok (lo, hi) ∧
      lo ≤ θ ∧ θ ≤ hi ∧ 0 ≤ lo ∧ lo ≤ 1 ∧ 0 ≤ hi ∧ hi ≤ 1 :=
  c7_bound_ordering (1/2) (7/10) (9/10) (196/100) (1/1000000) 1000000 500 500
    (by norm_num) (by norm_num) (by norm_num) (by norm_num) (by norm_num)
    (by norm_num) (by norm_num) (by norm_num) (by norm_num) (by norm_num)
    (by rw [abs_of_pos (by norm_num : (0:ℝ) < 7/10 + 9/10 - 1)]; norm_num)

/-- Claim C8: whenever the discriminability q0 + q1 - 1 is below ε in
absolute value the estimator fails with DegenerateCalibration and never
returns a numeric value. -/
theorem c8_degenerate_rejection (p q0 q1 ε : ℝ) (h : |q0 + q1 - 1| < ε) :
    point_estimator p q0 q1 ε = Except.error CalibError.degenerateCalibration := by
  rw [point_estimator, if_pos h]

/-- Claim C8 witness: point_estimator(1/2, 1/2, 1/2) with the default
threshold, where D = 0. -/
theorem c8_degenerate_rejection_witness :
    |(1/2 : ℝ) + 1/2 - 1| < 1/1000000 ∧
    point_estimator (1/2) (1/2) (1/2) (1/1000000)
      = Except.error CalibError.degenerateCalibration :=
  ⟨by rw [show (1/2 : ℝ) + 1/2 - 1 = 0 from by norm_num, abs_zero]; norm_num,
   c8_degenerate_rejection (1/2) (1/2) (1/2) (1/1000000)
     (by rw [show (1/2 : ℝ) + 1/2 - 1 = 0 from by norm_num, abs_zero]; norm_num)⟩

/-- Claim C9: the concrete scenario m = 1000, p = 1/2, q0 = 7/10,
q1 = 9/10, m_pilot = 0 yields kappa = 3 and the allocation
(m0, m1) = (634, 366), with m1 the nearest integer to
1000 / (1 + sqrt 3). -/
theorem c9_concrete_scenario :
    allocate_calibration_sample 1000 (1/2) (7/10) (9/10) 0 (1/1000000)
      = ((634 : ℤ), (366 : ℤ)) := by
  have hs0 : (0 : ℝ) ≤ Real.sqrt 3 := Real.sqrt_nonneg 3
  have hs1 : Real.sqrt 3 < 634/366 := by
    rw [Real.sqrt_lt' (by norm_num : (0:ℝ) < 634/366)]
    norm_num
  have hs2 : (173/100 : ℝ) < Real.sqrt 3 := by
    rw [Real.lt_sqrt (by norm_num : (0:ℝ) ≤ 173/100)]
    norm_num
  have hk : kappa 0 (7/10) (9/10) (1/1000000) = 3 := by
    rw [kappa, if_pos rfl,
        min_eq_left (by norm_num : (9/10 : ℝ) ≤ 1 - 1/1000000)]
    norm_num
  rw [allocate_calibration_sample,
      if_neg (by norm_num : ¬ (1/2 : ℝ) < 1/1000000), hk]
  have hcoef : (1 + (1 / (1/2 : ℝ) - 1) * Real.sqrt 3) = 1 + Real.sqrt 3 := by
    norm_num
  rw [hcoef]
  have hden : (0 : ℝ) < 1 + Real.sqrt 3 := by linarith
  have hx1000 : (1000 : ℝ) / (1 + Real.sqrt 3) ≤ 1000 :=
    div_le_self (by norm_num) (by linarith)
  have hlo : ((366 : ℤ) : ℝ) ≤ (1000 : ℝ) / (1 + Real.sqrt 3) := by
    rw [le_div_iff₀ hden]
    push_cast
    nlinarith [hs1]
  have hhi : (1000 : ℝ) / (1 + Real.sqrt 3) < ((366 : ℤ) : ℝ) + 1/2 := by
    rw [div_lt_iff₀ hden]
    push_cast
    nlinarith [hs2]
  have hbr : bround ((1000 : ℝ) / (1 + Real.sqrt 3)) = 366 :=
    bround_eq_of_bounds hlo hhi
  push_cast
  rw [sub_zero, min_eq_right hx1000, hbr]
  decide

/-- Claim C10: under the entry validation every arithmetic step of the
allocator is well-defined: the prior-belief divisor is at least ε, the
Laplace denominator is at least one, the square-root argument kappa is
non-negative, and in the general branch p is positive and the final
divisor is at least one. -/
theorem c10_arithmetic_safety (p q0 q1 ε : ℝ) (m_pilot : ℕ)
    (hp0 : 0 ≤ p) (hp1 : p ≤ 1) (hq00 : 0 ≤ q0) (hq01 : q0 ≤ 1)
    (hq10 : 0 ≤ q1) (hq11 : q1 ≤ 1) (hε : 0 < ε) :
    ε ≤ 1 - min q1 (1 - ε) ∧
    (1 : ℝ) ≤ (m_pilot : ℝ) * (1 - q1) + 1 ∧
    0 ≤ kappa m_pilot q0 q1 ε ∧
    (ε ≤ p → 0 < p ∧
      1 ≤ 1 + (1 / p - 1) * Real.sqrt (kappa m_pilot q0 q1 ε)) := by
  have hmin : min q1 (1 - ε) ≤ 1 - ε := min_le_right _ _
  have h1 : ε ≤ 1 - min q1 (1 - ε) := by linarith
  have hml : (0 : ℝ) ≤ (m_pilot : ℝ) * (1 - q1) :=
    mul_nonneg (Nat.cast_nonneg _) (by linarith)
  have h2 : (1 : ℝ) ≤ (m_pilot : ℝ) * (1 - q1) + 1 := by linarith
  have h3 : 0 ≤ kappa m_pilot q0 q1 ε := by
    rw [kappa]
    split_ifs
    · exact div_nonneg (by linarith) (by linarith)
    · refine div_nonneg ?_ (by linarith)
      have : (0 : ℝ) ≤ (m_pilot : ℝ) * (1 - q0) :=
        mul_nonneg (Nat.cast_nonneg _) (by linarith)
      linarith
  refine ⟨h1, h2, h3, fun hεp => ?_⟩
  have hp : 0 < p := lt_of_lt_of_le hε hεp
  have hinv : 1 ≤ 1 / p := by
    rw [le_div_iff₀ hp]
    linarith
  have hprod : 0 ≤ (1 / p - 1) * Real.sqrt (kappa m_pilot q0 q1 ε) :=
    mul_nonneg (by linarith) (Real.sqrt_nonneg _)
  exact ⟨hp, by linarith⟩

/-- Claim C10 witness at p = 1/2, q0 = 7/10, q1 = 9/10, m_pilot = 5,
ε = 1/1000000. -/
theorem c10_arithmetic_safety_witness :
    (1/1000000 : ℝ) ≤ 1 - min (9/10) (1 - 1/1000000) ∧
    (1 : ℝ) ≤ ((5 : ℕ) : ℝ) * (1 - 9/10) + 1 ∧
    0 ≤ kappa 5 (7/10) (9/10) (1/1000000) ∧
    ((1/1000000 : ℝ) ≤ 1/2 → (0 : ℝ) < 1/2 ∧
      1 ≤ 1 + (1 / (1/2) - 1) * Real.sqrt (kappa 5 (7/10) (9/10) (1/1000000))) :=
  c10_arithmetic_safety (1/2) (7/10) (9/10) (1/1000000) 5
    (by norm_num) (by norm_num) (by norm_num) (by norm_num)
    (by norm_num) (by norm_num) (by norm_num)

end LLMJudgeReporting
